import Mathlib

/-!
Shallow embedding of `src/movie_recommender.py` (class `MovieRecommender`).

The program is a TMDB client: each recommendation method fetches the movie's
detail record, derives filter parameters from it, issues one discovery query,
and post-processes the returned `results` array.  We model the network as
explicit inputs:

* the detail fetch (`self.get_movie_details(movie_id)`) is modelled by a
  parameter `detail : Option MovieDetails` (`none` = the method returned
  `None` after a transport failure);
* the discovery call is modelled by an oracle
  `api : Params → FetchResult DiscoverResponse` mapping the issued query
  parameters to the remote response;
* JSON dictionary keys that the code subscripts are modelled as `Option`
  fields (`none` = key absent).  A subscript on an absent key raises a
  Python `KeyError`; since the `except` clauses only catch
  `requests.exceptions.RequestException`, such an error propagates to the
  caller, which we model with `Except PyError`.

Python floats (`vote_average`) are modelled as exact rationals `ℚ`.
The constant `api_key` parameter and the URL strings are outside the model;
the constant `sort_by` / `language` parameters are kept as string fields.
The comma-joined id strings (`','.join(map(str, ids))`) are modelled as the
id lists themselves (the join is injective on lists of decimal integers).
-/

/-- An entry of a `results` array.  The recommendation logic only reads the
`id` key of each result (`movie['id']`); presentation fields are not part of
the modelled logic. -/
structure Movie where
  id : Int
deriving DecidableEq

/-- An entry of the `genres` list: `{'id': ..., 'name': ...}` (only `id` is
read). -/
structure Genre where
  id : Int
deriving DecidableEq

/-- An entry of `credits.crew`: the code reads `crew_member['job']` and
`crew_member['id']`. -/
structure CrewMember where
  id : Int
  job : String
deriving DecidableEq

/-- An entry of `credits.cast`: the code reads `actor['id']`. -/
structure CastMember where
  id : Int
deriving DecidableEq

/-- An entry of the keyword list: the code reads `kw['id']`. -/
structure Keyword where
  id : Int
deriving DecidableEq

/-- The `credits` object of a detail response.  Its `crew` / `cast` keys are
subscripted directly (`movie_details['credits']['crew']`), so an absent key
raises `KeyError`; we model them as `Option`. -/
structure Credits where
  crew : Option (List CrewMember)
  cast : Option (List CastMember)
deriving DecidableEq

/-- The top-level `keywords` object of a detail response; its inner key is
read with `.get('keywords', [])`, so absence is harmless. -/
structure KeywordsObj where
  keywords : Option (List Keyword)
deriving DecidableEq

/-- The movie detail record (`get_movie_details` result).  The top-level
`genres`, `credits`, `keywords` keys are membership-tested before use
(`'genres' not in movie_details`), and `vote_average` is read with
`.get('vote_average', 0)`; all are modelled as `Option` fields. -/
structure MovieDetails where
  genres : Option (List Genre)
  credits : Option Credits
  keywords : Option KeywordsObj
  vote_average : Option ℚ
deriving DecidableEq

/-- The parameters of a discovery query (besides the constant `api_key`).
`none` models an absent parameter (`requests` drops `None` values). -/
structure Params where
  with_genres : Option (List Int)
  with_crew : Option Int
  with_cast : Option (List Int)
  with_keywords : Option (List Int)
  vote_average_gte : Option ℚ
  vote_average_lte : Option ℚ
  sort_by : String
  language : String
deriving DecidableEq

/-- Outcome of one `requests.get` + `raise_for_status` + `.json()` round
trip: either a `requests.exceptions.RequestException` (caught by the
`except` clauses) or the parsed JSON body. -/
inductive FetchResult (α : Type) where
  | transportError
  | ok (data : α)
deriving DecidableEq

/-- Body of a discovery / recommendations response; the code subscripts
`data['results']`, so an absent key raises `KeyError`. -/
structure DiscoverResponse where
  results : Option (List Movie)
deriving DecidableEq

/-- A Python exception that escapes the recommendation methods (the `except`
clauses only catch `requests.exceptions.RequestException`). -/
inductive PyError where
  | keyError (key : String)
deriving DecidableEq

/-- Post-processing shared by `get_recommendations_by_genre` and
`get_tmdb_recommendations`: on transport failure print-and-return `[]`,
otherwise `return data['results'][:limit]` (no self-exclusion filter). -/
def handle_plain (limit : Nat) (resp : FetchResult DiscoverResponse) :
    Except PyError (List Movie) :=
  match resp with
  | .transportError => .ok []
  | .ok data =>
    match data.results with
    | none => .error (.keyError "results")
    | some rs => .ok (rs.take limit)

/-- Post-processing shared by the director / cast / keywords / rating
methods: on transport failure print-and-return `[]`, otherwise
`return [movie for movie in data['results'] if movie['id'] != movie_id][:limit]`. -/
def handle_filtered (movie_id : Int) (limit : Nat)
    (resp : FetchResult DiscoverResponse) : Except PyError (List Movie) :=
  match resp with
  | .transportError => .ok []
  | .ok data =>
    match data.results with
    | none => .error (.keyError "results")
    | some rs => .ok ((rs.filter (fun m => m.id != movie_id)).take limit)

/-- Parameters issued by `get_recommendations_by_genre`:
`{'with_genres': ','.join(...), 'sort_by': 'popularity.desc', 'language': 'en-US'}`.
Note that for an empty genre list the join is the empty string, still a
present parameter. -/
def genre_params (genre_ids : List Int) : Params :=
  { with_genres := some genre_ids, with_crew := none, with_cast := none,
    with_keywords := none, vote_average_gte := none, vote_average_lte := none,
    sort_by := "popularity.desc", language := "en-US" }

/-- `get_recommendations_by_genre(self, movie_id, limit=10)` (lines 57-80). -/
def get_recommendations_by_genre (movie_id : Int) (limit : Nat)
    (detail : Option MovieDetails)
    (api : Params → FetchResult DiscoverResponse) : Except PyError (List Movie) :=
  match detail with
  | none => .ok []
  | some movie_details =>
    match movie_details.genres with
    | none => .ok []
    | some genres =>
      let genre_ids := genres.map Genre.id
      handle_plain limit (api (genre_params genre_ids))

/-- The director-finding loop of lines 89-93: first crew entry whose
`job == 'Director'`, else `None`. -/
def find_director (crew : List CrewMember) : Option CrewMember :=
  crew.find? (fun c => c.job == "Director")

/-- Parameters issued by `get_recommendations_by_director`:
`{'with_crew': director['id'], ...}`. -/
def director_params (director_id : Int) : Params :=
  { with_genres := none, with_crew := some director_id, with_cast := none,
    with_keywords := none, vote_average_gte := none, vote_average_lte := none,
    sort_by := "popularity.desc", language := "en-US" }

/-- `get_recommendations_by_director(self, movie_id, limit=10)` (lines 82-115). -/
def get_recommendations_by_director (movie_id : Int) (limit : Nat)
    (detail : Option MovieDetails)
    (api : Params → FetchResult DiscoverResponse) : Except PyError (List Movie) :=
  match detail with
  | none => .ok []
  | some movie_details =>
    match movie_details.credits with
    | none => .ok []
    | some credits =>
      match credits.crew with
      | none => .error (.keyError "crew")
      | some crew =>
        match find_director crew with
        | none => .ok []
        | some director =>
          handle_filtered movie_id limit (api (director_params director.id))

/-- Parameters issued by `get_recommendations_by_cast`:
`{'with_cast': ','.join(...), ...}`. -/
def cast_params (cast_ids : List Int) : Params :=
  { with_genres := none, with_crew := none, with_cast := some cast_ids,
    with_keywords := none, vote_average_gte := none, vote_average_lte := none,
    sort_by := "popularity.desc", language := "en-US" }

/-- `get_recommendations_by_cast(self, movie_id, limit=10)` (lines 117-146). -/
def get_recommendations_by_cast (movie_id : Int) (limit : Nat)
    (detail : Option MovieDetails)
    (api : Params → FetchResult DiscoverResponse) : Except PyError (List Movie) :=
  match detail with
  | none => .ok []
  | some movie_details =>
    match movie_details.credits with
    | none => .ok []
    | some credits =>
      match credits.cast with
      | none => .error (.keyError "cast")
      | some castList =>
        let cast := castList.take 3
        if cast.isEmpty then .ok []
        else
          let cast_ids := cast.map CastMember.id
          handle_filtered movie_id limit (api (cast_params cast_ids))

/-- Parameters issued by `get_recommendations_by_keywords`:
`{'with_keywords': ','.join(...), ...}`. -/
def keywords_params (keyword_ids : List Int) : Params :=
  { with_genres := none, with_crew := none, with_cast := none,
    with_keywords := some keyword_ids, vote_average_gte := none,
    vote_average_lte := none,
    sort_by := "popularity.desc", language := "en-US" }

/-- `get_recommendations_by_keywords(self, movie_id, limit=10)` (lines 148-177). -/
def get_recommendations_by_keywords (movie_id : Int) (limit : Nat)
    (detail : Option MovieDetails)
    (api : Params → FetchResult DiscoverResponse) : Except PyError (List Movie) :=
  match detail with
  | none => .ok []
  | some movie_details =>
    match movie_details.keywords with
    | none => .ok []
    | some kwObj =>
      let keywords := kwObj.keywords.getD []
      if keywords.isEmpty then .ok []
      else
        let keyword_ids := (keywords.take 5).map Keyword.id
        handle_filtered movie_id limit (api (keywords_params keyword_ids))

/-- Parameters issued by `get_recommendations_by_rating` (lines 189-196):
`vote_average.gte = max(0, rating - 1)`, `vote_average.lte = min(10, rating + 1)`,
`with_genres = ','.join(...) if genre_ids else None`. -/
def rating_params (movie_details : MovieDetails) : Params :=
  let rating := movie_details.vote_average.getD 0
  let genre_ids := (movie_details.genres.getD []).map Genre.id
  { with_genres := if genre_ids.isEmpty then none else some genre_ids,
    with_crew := none, with_cast := none, with_keywords := none,
    vote_average_gte := some (max 0 (rating - 1)),
    vote_average_lte := some (min 10 (rating + 1)),
    sort_by := "popularity.desc", language := "en-US" }

/-- `get_recommendations_by_rating(self, movie_id, limit=10)` (lines 179-206). -/
def get_recommendations_by_rating (movie_id : Int) (limit : Nat)
    (detail : Option MovieDetails)
    (api : Params → FetchResult DiscoverResponse) : Except PyError (List Movie) :=
  match detail with
  | none => .ok []
  | some movie_details =>
    handle_filtered movie_id limit (api (rating_params movie_details))

/-- `get_tmdb_recommendations(self, movie_id, limit=10)` (lines 208-223):
calls the native `/movie/{movie_id}/recommendations` endpoint (no filter
parameters derived from the detail record, no self-exclusion);
`resp` is the remote response to that call. -/
def get_tmdb_recommendations (movie_id : Int) (limit : Nat)
    (resp : FetchResult DiscoverResponse) : Except PyError (List Movie) :=
  handle_plain limit resp

/-! ### Helper lemmas about the shared post-processing -/

theorem handle_filtered_excludes (movie_id : Int) (limit : Nat)
    (resp : FetchResult DiscoverResponse) (l : List Movie)
    (h : handle_filtered movie_id limit resp = .ok l) :
    ∀ m ∈ l, m.id ≠ movie_id := by
  intro m hm
  match resp with
  | .transportError =>
    simp [handle_filtered] at h
    subst h
    simp at hm
  | .ok data =>
    match hres : data.results with
    | none => simp [handle_filtered, hres] at h
    | some rs =>
      simp [handle_filtered, hres] at h
      subst h
      have h1 := List.take_subset limit _ hm
      have h2 := List.of_mem_filter h1
      simpa using h2

theorem handle_filtered_length (movie_id : Int) (limit : Nat)
    (resp : FetchResult DiscoverResponse) (l : List Movie)
    (h : handle_filtered movie_id limit resp = .ok l) :
    l.length ≤ limit := by
  match resp with
  | .transportError =>
    simp [handle_filtered] at h
    subst h
    simp
  | .ok data =>
    match hres : data.results with
    | none => simp [handle_filtered, hres] at h
    | some rs =>
      simp [handle_filtered, hres] at h
      subst h
      simpa using List.length_take_le limit _

theorem handle_plain_length (limit : Nat)
    (resp : FetchResult DiscoverResponse) (l : List Movie)
    (h : handle_plain limit resp = .ok l) :
    l.length ≤ limit := by
  match resp with
  | .transportError =>
    simp [handle_plain] at h
    subst h
    simp
  | .ok data =>
    match hres : data.results with
    | none => simp [handle_plain, hres] at h
    | some rs =>
      simp [handle_plain, hres] at h
      subst h
      simpa using List.length_take_le limit _

theorem handle_filtered_exact (movie_id : Int) (limit : Nat)
    (rs : List Movie)
    (h : limit ≤ (rs.filter (fun m => m.id != movie_id)).length) :
    ∃ l, handle_filtered movie_id limit (.ok ⟨some rs⟩) = .ok l ∧
      l.length = limit := by
  refine ⟨(rs.filter (fun m => m.id != movie_id)).take limit, ?_, ?_⟩
  · simp [handle_filtered]
  · simp only [List.length_take]
    omega

/-! ### Shape lemmas: every run of a recommendation method ends in one of
the shared post-processing branches (or an early return) -/

theorem genre_shape (movie_id : Int) (limit : Nat) (detail : Option MovieDetails)
    (api : Params → FetchResult DiscoverResponse) :
    get_recommendations_by_genre movie_id limit detail api = .ok [] ∨
    ∃ r, get_recommendations_by_genre movie_id limit detail api = handle_plain limit r := by
  unfold get_recommendations_by_genre
  split
  · exact .inl rfl
  · split
    · exact .inl rfl
    · exact .inr ⟨_, rfl⟩

theorem director_shape (movie_id : Int) (limit : Nat) (detail : Option MovieDetails)
    (api : Params → FetchResult DiscoverResponse) :
    get_recommendations_by_director movie_id limit detail api = .ok [] ∨
    get_recommendations_by_director movie_id limit detail api = .error (.keyError "crew") ∨
    ∃ r, get_recommendations_by_director movie_id limit detail api =
      handle_filtered movie_id limit r := by
  unfold get_recommendations_by_director
  split
  · exact .inl rfl
  · split
    · exact .inl rfl
    · split
      · exact .inr (.inl rfl)
      · split
        · exact .inl rfl
        · exact .inr (.inr ⟨_, rfl⟩)

theorem cast_shape (movie_id : Int) (limit : Nat) (detail : Option MovieDetails)
    (api : Params → FetchResult DiscoverResponse) :
    get_recommendations_by_cast movie_id limit detail api = .ok [] ∨
    get_recommendations_by_cast movie_id limit detail api = .error (.keyError "cast") ∨
    ∃ r, get_recommendations_by_cast movie_id limit detail api =
      handle_filtered movie_id limit r := by
  unfold get_recommendations_by_cast
  split
  · exact .inl rfl
  · split
    · exact .inl rfl
    · split
      · exact .inr (.inl rfl)
      · dsimp only
        split
        · exact .inl rfl
        · exact .inr (.inr ⟨_, rfl⟩)

theorem keywords_shape (movie_id : Int) (limit : Nat) (detail : Option MovieDetails)
    (api : Params → FetchResult DiscoverResponse) :
    get_recommendations_by_keywords movie_id limit detail api = .ok [] ∨
    ∃ r, get_recommendations_by_keywords movie_id limit detail api =
      handle_filtered movie_id limit r := by
  unfold get_recommendations_by_keywords
  split
  · exact .inl rfl
  · split
    · exact .inl rfl
    · dsimp only
      split
      · exact .inl rfl
      · exact .inr ⟨_, rfl⟩

theorem rating_shape (movie_id : Int) (limit : Nat) (detail : Option MovieDetails)
    (api : Params → FetchResult DiscoverResponse) :
    get_recommendations_by_rating movie_id limit detail api = .ok [] ∨
    ∃ r, get_recommendations_by_rating movie_id limit detail api =
      handle_filtered movie_id limit r := by
  unfold get_recommendations_by_rating
  split
  · exact .inl rfl
  · exact .inr ⟨_, rfl⟩

/-! ### Facts about the director-finding loop -/

theorem find_director_eq_none (crew : List CrewMember)
    (h : ∀ c ∈ crew, c.job ≠ "Director") : find_director crew = none := by
  rw [find_director, List.find?_eq_none]
  intro c hc
  simpa using h c hc

theorem find_director_first (pre post : List CrewMember) (director : CrewMember)
    (hpre : ∀ c ∈ pre, c.job ≠ "Director") (hdir : director.job = "Director") :
    find_director (pre ++ director :: post) = some director := by
  induction pre with
  | nil =>
    exact List.find?_cons_of_pos _ (by simp [hdir])
  | cons a t ih =>
    have ha : ¬ (a.job == "Director") = true := by
      simpa using hpre a (by simp)
    have ht : ∀ c ∈ t, c.job ≠ "Director" := fun c hc => hpre c (by simp [hc])
    calc find_director (a :: t ++ director :: post)
        = find_director (t ++ director :: post) := by
          rw [find_director, find_director, List.cons_append]
          exact List.find?_cons_of_neg _ ha
      _ = some director := ih ht

/-! ### Concrete fixtures used by witnesses and counterexamples -/

/-- A concrete detail record exercising every criterion: two genres, a crew
whose second entry is the director, a five-member cast, six keywords, and a
vote average of 7. -/
def sampleDetails : MovieDetails :=
  { genres := some [{ id := 28 }, { id := 12 }],
    credits := some { crew := some [{ id := 77, job := "Producer" },
                                    { id := 99, job := "Director" }],
                      cast := some [{ id := 1 }, { id := 2 }, { id := 3 },
                                    { id := 4 }, { id := 5 }] },
    keywords := some { keywords := some [{ id := 11 }, { id := 12 },
                                         { id := 13 }, { id := 14 },
                                         { id := 15 }, { id := 16 }] },
    vote_average := some 7 }

/-- A remote API that always answers with a result list containing the
source movie's id 7 followed by the id 5. -/
def apiSelf : Params → FetchResult DiscoverResponse :=
  fun _ => .ok { results := some [{ id := 7 }, { id := 5 }] }

/-- C1: For every criterion other than "genre" and "combined" (director,
cast, keywords, rating) and for every remote result list, the returned
recommendation sequence never contains an entry whose id equals the source
movie's id, even when the remote API's result list includes it. -/
theorem claim_C1_self_exclusion_non_genre (movie_id : Int) (limit : Nat)
    (detail : Option MovieDetails) (api : Params → FetchResult DiscoverResponse)
    (l : List Movie) (m : Movie) (hm : m ∈ l) :
    (get_recommendations_by_director movie_id limit detail api = .ok l →
      m.id ≠ movie_id) ∧
    (get_recommendations_by_cast movie_id limit detail api = .ok l →
      m.id ≠ movie_id) ∧
    (get_recommendations_by_keywords movie_id limit detail api = .ok l →
      m.id ≠ movie_id) ∧
    (get_recommendations_by_rating movie_id limit detail api = .ok l →
      m.id ≠ movie_id) := by
  refine ⟨?_, ?_, ?_, ?_⟩
  · intro h
    rcases director_shape movie_id limit detail api with h0 | h0 | ⟨r, h0⟩
    · rw [h0] at h
      injection h with h
      subst h
      simp at hm
    · rw [h0] at h
      exact absurd h (by simp)
    · rw [h0] at h
      exact handle_filtered_excludes movie_id limit r l h m hm
  · intro h
    rcases cast_shape movie_id limit detail api with h0 | h0 | ⟨r, h0⟩
    · rw [h0] at h
      injection h with h
      subst h
      simp at hm
    · rw [h0] at h
      exact absurd h (by simp)
    · rw [h0] at h
      exact handle_filtered_excludes movie_id limit r l h m hm
  · intro h
    rcases keywords_shape movie_id limit detail api with h0 | ⟨r, h0⟩
    · rw [h0] at h
      injection h with h
      subst h
      simp at hm
    · rw [h0] at h
      exact handle_filtered_excludes movie_id limit r l h m hm
  · intro h
    rcases rating_shape movie_id limit detail api with h0 | ⟨r, h0⟩
    · rw [h0] at h
      injection h with h
      subst h
      simp at hm
    · rw [h0] at h
      exact handle_filtered_excludes movie_id limit r l h m hm

theorem claim_C1_self_exclusion_non_genre_witness :
    ((5 : Int) ≠ 7) ∧ ((5 : Int) ≠ 7) ∧ ((5 : Int) ≠ 7) ∧ ((5 : Int) ≠ 7) := by
  have h := claim_C1_self_exclusion_non_genre 7 10 (some sampleDetails) apiSelf
    [{ id := 5 }] { id := 5 } (by decide)
  exact ⟨h.1 rfl, h.2.1 rfl, h.2.2.1 rfl, h.2.2.2 rfl⟩

/-- C9: For every criterion and every limit, the recommendation sequence
returned by resolution contains at most `limit` elements. -/
theorem claim_C9_limit_cap (movie_id : Int) (limit : Nat)
    (detail : Option MovieDetails) (api : Params → FetchResult DiscoverResponse)
    (resp : FetchResult DiscoverResponse) (l : List Movie) :
    (get_recommendations_by_genre movie_id limit detail api = .ok l →
      l.length ≤ limit) ∧
    (get_recommendations_by_director movie_id limit detail api = .ok l →
      l.length ≤ limit) ∧
    (get_recommendations_by_cast movie_id limit detail api = .ok l →
      l.length ≤ limit) ∧
    (get_recommendations_by_keywords movie_id limit detail api = .ok l →
      l.length ≤ limit) ∧
    (get_recommendations_by_rating movie_id limit detail api = .ok l →
      l.length ≤ limit) ∧
    (get_tmdb_recommendations movie_id limit resp = .ok l →
      l.length ≤ limit) := by
  refine ⟨?_, ?_, ?_, ?_, ?_, ?_⟩
  · intro h
    rcases genre_shape movie_id limit detail api with h0 | ⟨r, h0⟩
    · rw [h0] at h
      injection h with h
      subst h
      simp
    · rw [h0] at h
      exact handle_plain_length limit r l h
  · intro h
    rcases director_shape movie_id limit detail api with h0 | h0 | ⟨r, h0⟩
    · rw [h0] at h
      injection h with h
      subst h
      simp
    · rw [h0] at h
      exact absurd h (by simp)
    · rw [h0] at h
      exact handle_filtered_length movie_id limit r l h
  · intro h
    rcases cast_shape movie_id limit detail api with h0 | h0 | ⟨r, h0⟩
    · rw [h0] at h
      injection h with h
      subst h
      simp
    · rw [h0] at h
      exact absurd h (by simp)
    · rw [h0] at h
      exact handle_filtered_length movie_id limit r l h
  · intro h
    rcases keywords_shape movie_id limit detail api with h0 | ⟨r, h0⟩
    · rw [h0] at h
      injection h with h
      subst h
      simp
    · rw [h0] at h
      exact handle_filtered_length movie_id limit r l h
  · intro h
    rcases rating_shape movie_id limit detail api with h0 | ⟨r, h0⟩
    · rw [h0] at h
      injection h with h
      subst h
      simp
    · rw [h0] at h
      exact handle_filtered_length movie_id limit r l h
  · intro h
    exact handle_plain_length limit resp l h

theorem claim_C9_limit_cap_witness : ([({ id := 5 } : Movie)].length ≤ 10) := by
  have h := claim_C9_limit_cap 7 10 (some sampleDetails) apiSelf
    (.ok { results := some [{ id := 7 }, { id := 5 }] }) [{ id := 5 }]
  exact h.2.1 rfl

/-- C2 counterexample: with source movie id 7 and a remote result list that
contains id 7, genre-based discovery returns a sequence still containing
id 7, and so does the native recommendations endpoint — the claimed
client-side self-exclusion is not applied on those two result lists. -/
theorem claim_C2_counterexample :
    get_recommendations_by_genre 7 10 (some sampleDetails) apiSelf
      = .ok [{ id := 7 }, { id := 5 }] ∧
    get_tmdb_recommendations 7 10 (.ok { results := some [{ id := 7 }] })
      = .ok [{ id := 7 }] := ⟨rfl, rfl⟩

/-- C2 (amended): self-exclusion is enforced client-side post-fetch on the
result lists of the director, cast, keywords and rating discovery queries,
but not for the genre discovery query nor the native recommendation
endpoint, which return the remote result list truncated to the limit with
the source movie's id left in. -/
theorem claim_C2_amended_self_exclusion (movie_id : Int) (limit : Nat)
    (d : MovieDetails) (api : Params → FetchResult DiscoverResponse)
    (l : List Movie) (m : Movie) (hm : m ∈ l) (rs : List Movie)
    (hapi : ∀ p, api p = .ok { results := some rs })
    (gs : List Genre) (hg : d.genres = some gs) :
    (get_recommendations_by_director movie_id limit (some d) api = .ok l →
      m.id ≠ movie_id) ∧
    (get_recommendations_by_cast movie_id limit (some d) api = .ok l →
      m.id ≠ movie_id) ∧
    (get_recommendations_by_keywords movie_id limit (some d) api = .ok l →
      m.id ≠ movie_id) ∧
    (get_recommendations_by_rating movie_id limit (some d) api = .ok l →
      m.id ≠ movie_id) ∧
    (get_recommendations_by_genre movie_id limit (some d) api =
      .ok (rs.take limit)) ∧
    (get_tmdb_recommendations movie_id limit (.ok { results := some rs }) =
      .ok (rs.take limit)) := by
  refine ⟨?_, ?_, ?_, ?_, ?_, ?_⟩
  · intro h
    rcases director_shape movie_id limit (some d) api with h0 | h0 | ⟨r, h0⟩
    · rw [h0] at h
      injection h with h
      subst h
      simp at hm
    · rw [h0] at h
      exact absurd h (by simp)
    · rw [h0] at h
      exact handle_filtered_excludes movie_id limit r l h m hm
  · intro h
    rcases cast_shape movie_id limit (some d) api with h0 | h0 | ⟨r, h0⟩
    · rw [h0] at h
      injection h with h
      subst h
      simp at hm
    · rw [h0] at h
      exact absurd h (by simp)
    · rw [h0] at h
      exact handle_filtered_excludes movie_id limit r l h m hm
  · intro h
    rcases keywords_shape movie_id limit (some d) api with h0 | ⟨r, h0⟩
    · rw [h0] at h
      injection h with h
      subst h
      simp at hm
    · rw [h0] at h
      exact handle_filtered_excludes movie_id limit r l h m hm
  · intro h
    rcases rating_shape movie_id limit (some d) api with h0 | ⟨r, h0⟩
    · rw [h0] at h
      injection h with h
      subst h
      simp at hm
    · rw [h0] at h
      exact handle_filtered_excludes movie_id limit r l h m hm
  · simp [get_recommendations_by_genre, hg, hapi, handle_plain]
  · simp [get_tmdb_recommendations, handle_plain]

theorem claim_C2_amended_self_exclusion_witness :
    ((5 : Int) ≠ 7) ∧ ((5 : Int) ≠ 7) ∧ ((5 : Int) ≠ 7) ∧ ((5 : Int) ≠ 7) ∧
    (get_recommendations_by_genre 7 10 (some sampleDetails) apiSelf =
      .ok ([{ id := 7 }, { id := 5 }].take 10)) ∧
    (get_tmdb_recommendations 7 10
        (.ok { results := some [{ id := 7 }, { id := 5 }] }) =
      .ok ([{ id := 7 }, { id := 5 }].take 10)) := by
  have h := claim_C2_amended_self_exclusion 7 10 sampleDetails apiSelf
    [{ id := 5 }] { id := 5 } (by decide) [{ id := 7 }, { id := 5 }]
    (fun _ => rfl) [{ id := 28 }, { id := 12 }] rfl
  exact ⟨h.1 rfl, h.2.1 rfl, h.2.2.1 rfl, h.2.2.2.1 rfl,
    h.2.2.2.2.1, h.2.2.2.2.2⟩

/-- C10: For every criterion that applies self-exclusion (director, cast,
keywords, rating), the source-movie filter is applied before the limit
truncation, so the cap of `limit` counts only non-source entries: whenever
the remote result list contains at least `limit` entries other than the
source movie, exactly `limit` entries are returned. -/
theorem claim_C10_filter_before_cap (movie_id : Int) (limit : Nat)
    (d : MovieDetails) (api : Params → FetchResult DiscoverResponse)
    (rs : List Movie)
    (hapi : ∀ p, api p = .ok { results := some rs })
    (hcount : limit ≤ (rs.filter (fun m => m.id != movie_id)).length) :
    (∀ credits crew director, d.credits = some credits →
      credits.crew = some crew → find_director crew = some director →
      ∃ l, get_recommendations_by_director movie_id limit (some d) api = .ok l ∧
        l.length = limit) ∧
    (∀ credits castList, d.credits = some credits →
      credits.cast = some castList → (castList.take 3).isEmpty = false →
      ∃ l, get_recommendations_by_cast movie_id limit (some d) api = .ok l ∧
        l.length = limit) ∧
    (∀ kwObj, d.keywords = some kwObj →
      (kwObj.keywords.getD []).isEmpty = false →
      ∃ l, get_recommendations_by_keywords movie_id limit (some d) api = .ok l ∧
        l.length = limit) ∧
    (∃ l, get_recommendations_by_rating movie_id limit (some d) api = .ok l ∧
      l.length = limit) := by
  refine ⟨?_, ?_, ?_, ?_⟩
  · intro credits crew director hc hcr hfd
    rw [show get_recommendations_by_director movie_id limit (some d) api =
        handle_filtered movie_id limit (api (director_params director.id)) by
      simp [get_recommendations_by_director, hc, hcr, hfd]]
    rw [hapi]
    exact handle_filtered_exact movie_id limit rs hcount
  · intro credits castList hc hcast hne
    rw [show get_recommendations_by_cast movie_id limit (some d) api =
        handle_filtered movie_id limit
          (api (cast_params ((castList.take 3).map CastMember.id))) by
      simp [get_recommendations_by_cast, hc, hcast, hne]]
    rw [hapi]
    exact handle_filtered_exact movie_id limit rs hcount
  · intro kwObj hk hne
    rw [show get_recommendations_by_keywords movie_id limit (some d) api =
        handle_filtered movie_id limit
          (api (keywords_params (((kwObj.keywords.getD []).take 5).map Keyword.id))) by
      simp [get_recommendations_by_keywords, hk, hne]]
    rw [hapi]
    exact handle_filtered_exact movie_id limit rs hcount
  · rw [show get_recommendations_by_rating movie_id limit (some d) api =
        handle_filtered movie_id limit (api (rating_params d)) by
      simp [get_recommendations_by_rating]]
    rw [hapi]
    exact handle_filtered_exact movie_id limit rs hcount

/-- A remote API that always answers with three results: the source id 7
and two other movies. -/
def apiThree : Params → FetchResult DiscoverResponse :=
  fun _ => .ok { results := some [{ id := 7 }, { id := 5 }, { id := 6 }] }

theorem claim_C10_filter_before_cap_witness :
    (∃ l, get_recommendations_by_director 7 2 (some sampleDetails) apiThree
      = .ok l ∧ l.length = 2) := by
  have h := claim_C10_filter_before_cap 7 2 sampleDetails apiThree
    [{ id := 7 }, { id := 5 }, { id := 6 }] (fun _ => rfl) (by decide)
  exact h.1 _ _ { id := 99, job := "Director" } rfl rfl (by decide)

/-- A detail record whose crew credits nobody as "Director". -/
def noDirectorDetails : MovieDetails :=
  { genres := none,
    credits := some { crew := some [{ id := 77, job := "Producer" }],
                      cast := some [] },
    keywords := none, vote_average := none }

/-- C3: director-based resolution derives its filter from the id of the
first crew entry (in detail-response order) whose job equals "Director";
if the crew contains no such entry, it returns an empty sequence. -/
theorem claim_C3_director_first_crew (movie_id : Int) (limit : Nat)
    (d : MovieDetails) (credits : Credits) (crew : List CrewMember)
    (api : Params → FetchResult DiscoverResponse)
    (hc : d.credits = some credits) (hcr : credits.crew = some crew) :
    ((∀ c ∈ crew, c.job ≠ "Director") →
      get_recommendations_by_director movie_id limit (some d) api = .ok []) ∧
    (∀ pre director post, crew = pre ++ director :: post →
      (∀ c ∈ pre, c.job ≠ "Director") → director.job = "Director" →
      get_recommendations_by_director movie_id limit (some d) api =
        handle_filtered movie_id limit (api (director_params director.id))) := by
  constructor
  · intro hnone
    simp [get_recommendations_by_director, hc, hcr,
      find_director_eq_none crew hnone]
  · intro pre director post hsplit hpre hdir
    subst hsplit
    simp [get_recommendations_by_director, hc, hcr,
      find_director_first pre post director hpre hdir]

theorem claim_C3_director_first_crew_witness :
    (get_recommendations_by_director 7 10 (some noDirectorDetails) apiSelf
      = .ok []) ∧
    (get_recommendations_by_director 7 10 (some sampleDetails) apiSelf =
      handle_filtered 7 10 (apiSelf (director_params 99))) := by
  constructor
  · exact (claim_C3_director_first_crew 7 10 noDirectorDetails
      { crew := some [{ id := 77, job := "Producer" }], cast := some [] }
      [{ id := 77, job := "Producer" }] apiSelf rfl rfl).1 (by decide)
  · exact (claim_C3_director_first_crew 7 10 sampleDetails
      { crew := some [{ id := 77, job := "Producer" },
                      { id := 99, job := "Director" }],
        cast := some [{ id := 1 }, { id := 2 }, { id := 3 },
                      { id := 4 }, { id := 5 }] }
      [{ id := 77, job := "Producer" }, { id := 99, job := "Director" }]
      apiSelf rfl rfl).2
      [{ id := 77, job := "Producer" }] { id := 99, job := "Director" } []
      rfl (by decide) rfl

/-- C5: cast-based resolution derives its filter from exactly the ids of
the first 3 billed cast entries (for a longer cast, never the later ones);
if the cast is empty, it returns an empty sequence. -/
theorem claim_C5_cast_first_three (movie_id : Int) (limit : Nat)
    (d : MovieDetails) (credits : Credits)
    (api : Params → FetchResult DiscoverResponse)
    (hc : d.credits = some credits) :
    (credits.cast = some [] →
      get_recommendations_by_cast movie_id limit (some d) api = .ok []) ∧
    (∀ a b c rest, credits.cast = some (a :: b :: c :: rest) →
      get_recommendations_by_cast movie_id limit (some d) api =
        handle_filtered movie_id limit
          (api (cast_params [a.id, b.id, c.id]))) := by
  constructor
  · intro hcast
    simp [get_recommendations_by_cast, hc, hcast]
  · intro a b c rest hcast
    simp [get_recommendations_by_cast, hc, hcast]

theorem claim_C5_cast_first_three_witness :
    (get_recommendations_by_cast 7 10 (some noDirectorDetails) apiSelf
      = .ok []) ∧
    (get_recommendations_by_cast 7 10 (some sampleDetails) apiSelf =
      handle_filtered 7 10 (apiSelf (cast_params [1, 2, 3]))) := by
  constructor
  · exact (claim_C5_cast_first_three 7 10 noDirectorDetails
      { crew := some [{ id := 77, job := "Producer" }], cast := some [] }
      apiSelf rfl).1 rfl
  · exact (claim_C5_cast_first_three 7 10 sampleDetails
      { crew := some [{ id := 77, job := "Producer" },
                      { id := 99, job := "Director" }],
        cast := some [{ id := 1 }, { id := 2 }, { id := 3 },
                      { id := 4 }, { id := 5 }] }
      apiSelf rfl).2
      { id := 1 } { id := 2 } { id := 3 } [{ id := 4 }, { id := 5 }] rfl

/-- C6: keyword-based resolution derives its filter from the ids of the
first 5 keywords in the order given by the detail response; if the keyword
list is empty, it returns an empty sequence. -/
theorem claim_C6_keywords_first_five (movie_id : Int) (limit : Nat)
    (d : MovieDetails) (kwObj : KeywordsObj)
    (api : Params → FetchResult DiscoverResponse)
    (hk : d.keywords = some kwObj) :
    (kwObj.keywords.getD [] = [] →
      get_recommendations_by_keywords movie_id limit (some d) api = .ok []) ∧
    (∀ ks, kwObj.keywords = some ks → ks ≠ [] →
      get_recommendations_by_keywords movie_id limit (some d) api =
        handle_filtered movie_id limit
          (api (keywords_params ((ks.take 5).map Keyword.id)))) ∧
    (∀ k1 k2 k3 k4 k5 rest,
      kwObj.keywords = some (k1 :: k2 :: k3 :: k4 :: k5 :: rest) →
      get_recommendations_by_keywords movie_id limit (some d) api =
        handle_filtered movie_id limit
          (api (keywords_params [k1.id, k2.id, k3.id, k4.id, k5.id]))) := by
  refine ⟨?_, ?_, ?_⟩
  · intro hempty
    simp [get_recommendations_by_keywords, hk, hempty]
  · intro ks hks hne
    cases ks with
    | nil => exact absurd rfl hne
    | cons x xs =>
      simp [get_recommendations_by_keywords, hk, hks]
  · intro k1 k2 k3 k4 k5 rest hks
    simp [get_recommendations_by_keywords, hk, hks]

/-- A detail record whose keywords object holds an empty keyword list. -/
def emptyKeywordsDetails : MovieDetails :=
  { genres := none, credits := none,
    keywords := some { keywords := some [] }, vote_average := none }

theorem claim_C6_keywords_first_five_witness :
    (get_recommendations_by_keywords 7 10 (some emptyKeywordsDetails) apiSelf
      = .ok []) ∧
    (get_recommendations_by_keywords 7 10 (some sampleDetails) apiSelf =
      handle_filtered 7 10 (apiSelf (keywords_params [11, 12, 13, 14, 15]))) := by
  constructor
  · exact (claim_C6_keywords_first_five 7 10 emptyKeywordsDetails
      { keywords := some [] } apiSelf rfl).1 rfl
  · exact (claim_C6_keywords_first_five 7 10 sampleDetails
      { keywords := some [{ id := 11 }, { id := 12 }, { id := 13 },
                          { id := 14 }, { id := 15 }, { id := 16 }] }
      apiSelf rfl).2.2
      { id := 11 } { id := 12 } { id := 13 } { id := 14 } { id := 15 }
      [{ id := 16 }] rfl

/-- A detail record whose `genres` list is present but empty. -/
def emptyGenresDetails : MovieDetails :=
  { genres := some [], credits := none, keywords := none,
    vote_average := none }

/-- C7 counterexample: with an empty (but present) `genres` list the code
does not return an empty sequence — it still issues a discovery query
(with an empty genre filter) and returns the remote results truncated. -/
theorem claim_C7_counterexample :
    get_recommendations_by_genre 7 10 (some emptyGenresDetails) apiSelf
      = .ok [{ id := 7 }, { id := 5 }] ∧
    get_recommendations_by_genre 7 10 (some emptyGenresDetails) apiSelf
      ≠ .ok [] := by
  refine ⟨rfl, ?_⟩
  intro h
  injection h with h
  exact absurd h (by simp)

/-- C7 (amended): for every detail record whose `genres` key is present,
genre-based resolution's filter list is exactly the genre ids present
(so as a set, order-independent, all of them); if the `genres` key is
missing the resolution returns an empty sequence, but if it is present
and empty a discovery query with an empty genre filter is still issued
and its results are returned (not necessarily empty). -/
theorem claim_C7_amended_genre_filter (movie_id : Int) (limit : Nat)
    (d : MovieDetails) (api : Params → FetchResult DiscoverResponse) :
    (d.genres = none →
      get_recommendations_by_genre movie_id limit (some d) api = .ok []) ∧
    (∀ gs, d.genres = some gs →
      (get_recommendations_by_genre movie_id limit (some d) api =
        handle_plain limit (api (genre_params (gs.map Genre.id)))) ∧
      (∀ i : Int, i ∈ ((genre_params (gs.map Genre.id)).with_genres.getD [])
        ↔ ∃ g ∈ gs, g.id = i)) := by
  constructor
  · intro hg
    simp [get_recommendations_by_genre, hg]
  · intro gs hg
    constructor
    · simp [get_recommendations_by_genre, hg]
    · intro i
      simp [genre_params, List.mem_map]

theorem claim_C7_amended_genre_filter_witness :
    (get_recommendations_by_genre 7 10 (some noDirectorDetails) apiSelf
      = .ok []) ∧
    (get_recommendations_by_genre 7 10 (some sampleDetails) apiSelf =
      handle_plain 10 (apiSelf (genre_params [28, 12]))) ∧
    ((28 : Int) ∈ ((genre_params [28, 12]).with_genres.getD []) ↔
      ∃ g ∈ [({ id := 28 } : Genre), { id := 12 }], g.id = 28) := by
  refine ⟨?_, ?_, ?_⟩
  · exact (claim_C7_amended_genre_filter 7 10 noDirectorDetails apiSelf).1 rfl
  · exact ((claim_C7_amended_genre_filter 7 10 sampleDetails apiSelf).2
      [{ id := 28 }, { id := 12 }] rfl).1
  · exact ((claim_C7_amended_genre_filter 7 10 sampleDetails apiSelf).2
      [{ id := 28 }, { id := 12 }] rfl).2 28

/-- A detail record with `vote_average = 9.5`. -/
def highRatingDetails : MovieDetails :=
  { genres := none, credits := none, keywords := none,
    vote_average := some (19 / 2) }

/-- A detail record with `vote_average = 0.3`. -/
def lowRatingDetails : MovieDetails :=
  { genres := none, credits := none, keywords := none,
    vote_average := some (3 / 10) }

/-- C4: rating-based resolution computes the filter window as
`[rating − 1, rating + 1]` clamped to `[0, 10]`: with `vote_average = 9.5`
the window is `[8.5, 10]`, with `vote_average = 0.3` it is `[0, 1.3]`, and
a missing `vote_average` defaults to `0` (window `[0, 1]`), so the window
is always computable.  (Python floats are modelled as exact rationals.) -/
theorem claim_C4_rating_window (movie_id : Int) (limit : Nat)
    (d : MovieDetails) (api : Params → FetchResult DiscoverResponse) :
    (get_recommendations_by_rating movie_id limit (some d) api =
      handle_filtered movie_id limit (api (rating_params d))) ∧
    ((rating_params d).vote_average_gte =
        some (max 0 (d.vote_average.getD 0 - 1)) ∧
      (rating_params d).vote_average_lte =
        some (min 10 (d.vote_average.getD 0 + 1))) ∧
    (d.vote_average = some (19 / 2) →
      (rating_params d).vote_average_gte = some (17 / 2) ∧
      (rating_params d).vote_average_lte = some 10) ∧
    (d.vote_average = some (3 / 10) →
      (rating_params d).vote_average_gte = some 0 ∧
      (rating_params d).vote_average_lte = some (13 / 10)) ∧
    (d.vote_average = none →
      (rating_params d).vote_average_gte = some 0 ∧
      (rating_params d).vote_average_lte = some 1) := by
  refine ⟨rfl, ⟨rfl, rfl⟩, ?_, ?_, ?_⟩
  · intro hv
    constructor
    · simp only [rating_params, hv, Option.getD_some]
      norm_num
    · simp only [rating_params, hv, Option.getD_some]
      norm_num
  · intro hv
    constructor
    · simp only [rating_params, hv, Option.getD_some]
      norm_num
    · simp only [rating_params, hv, Option.getD_some]
      norm_num
  · intro hv
    constructor
    · simp only [rating_params, hv, Option.getD_none]
      norm_num
    · simp only [rating_params, hv, Option.getD_none]
      norm_num

theorem claim_C4_rating_window_witness :
    ((rating_params highRatingDetails).vote_average_gte = some (17 / 2) ∧
      (rating_params highRatingDetails).vote_average_lte = some 10) ∧
    ((rating_params lowRatingDetails).vote_average_gte = some 0 ∧
      (rating_params lowRatingDetails).vote_average_lte = some (13 / 10)) ∧
    ((rating_params emptyGenresDetails).vote_average_gte = some 0 ∧
      (rating_params emptyGenresDetails).vote_average_lte = some 1) := by
  refine ⟨?_, ?_, ?_⟩
  · exact (claim_C4_rating_window 7 10 highRatingDetails apiSelf).2.2.1 rfl
  · exact (claim_C4_rating_window 7 10 lowRatingDetails apiSelf).2.2.2.1 rfl
  · exact (claim_C4_rating_window 7 10 emptyGenresDetails apiSelf).2.2.2.2 rfl

/-- A remote API that always fails at transport level
(`requests.exceptions.RequestException`). -/
def apiDown : Params → FetchResult DiscoverResponse :=
  fun _ => .transportError

/-- A remote API whose responses parse but lack the `results` array. -/
def apiNoResults : Params → FetchResult DiscoverResponse :=
  fun _ => .ok { results := none }

/-- A detail record whose credits object lacks both the `crew` and the
`cast` key. -/
def bareCreditsDetails : MovieDetails :=
  { genres := none, credits := some { crew := none, cast := none },
    keywords := none, vote_average := none }

/-- C8 counterexample: a data-shape failure — a discovery response without
a `results` array — does not yield an empty sequence; the `except` clause
only catches `requests.exceptions.RequestException`, so the `KeyError`
from `data['results']` escapes to the caller. -/
theorem claim_C8_counterexample :
    get_recommendations_by_genre 7 10 (some sampleDetails) apiNoResults
      = .error (.keyError "results") := rfl

/-- C8 (amended): a transport failure while fetching the detail record or
the discovery results yields an empty sequence for the criterion, as does
a detail record missing its `genres` / `credits` / `keywords` section; but
a discovery response lacking the `results` array, or a credits section
lacking its `crew` (director criterion) or `cast` (cast criterion) list,
raises an uncaught `KeyError` to the caller. -/
theorem claim_C8_amended_failure_semantics (movie_id : Int) (limit : Nat)
    (d : MovieDetails)
    (api apiT apiN : Params → FetchResult DiscoverResponse)
    (hT : ∀ p, apiT p = .transportError)
    (hN : ∀ p, apiN p = .ok { results := none }) :
    (get_recommendations_by_genre movie_id limit none api = .ok []) ∧
    (get_recommendations_by_director movie_id limit none api = .ok []) ∧
    (get_recommendations_by_cast movie_id limit none api = .ok []) ∧
    (get_recommendations_by_keywords movie_id limit none api = .ok []) ∧
    (get_recommendations_by_rating movie_id limit none api = .ok []) ∧
    (get_recommendations_by_genre movie_id limit (some d) apiT = .ok []) ∧
    (∀ credits crew, d.credits = some credits → credits.crew = some crew →
      get_recommendations_by_director movie_id limit (some d) apiT = .ok []) ∧
    (∀ credits castList, d.credits = some credits →
      credits.cast = some castList →
      get_recommendations_by_cast movie_id limit (some d) apiT = .ok []) ∧
    (get_recommendations_by_keywords movie_id limit (some d) apiT = .ok []) ∧
    (get_recommendations_by_rating movie_id limit (some d) apiT = .ok []) ∧
    (get_tmdb_recommendations movie_id limit .transportError = .ok []) ∧
    (d.genres = none →
      get_recommendations_by_genre movie_id limit (some d) api = .ok []) ∧
    (d.credits = none →
      get_recommendations_by_director movie_id limit (some d) api = .ok []) ∧
    (d.credits = none →
      get_recommendations_by_cast movie_id limit (some d) api = .ok []) ∧
    (d.keywords = none →
      get_recommendations_by_keywords movie_id limit (some d) api = .ok []) ∧
    (∀ credits, d.credits = some credits → credits.crew = none →
      get_recommendations_by_director movie_id limit (some d) api =
        .error (.keyError "crew")) ∧
    (∀ credits, d.credits = some credits → credits.cast = none →
      get_recommendations_by_cast movie_id limit (some d) api =
        .error (.keyError "cast")) ∧
    (∀ gs, d.genres = some gs →
      get_recommendations_by_genre movie_id limit (some d) apiN =
        .error (.keyError "results")) ∧
    (get_recommendations_by_rating movie_id limit (some d) apiN =
      .error (.keyError "results")) ∧
    (get_tmdb_recommendations movie_id limit (.ok { results := none }) =
      .error (.keyError "results")) := by
  refine ⟨rfl, rfl, rfl, rfl, rfl, ?_, ?_, ?_, ?_, ?_, rfl, ?_, ?_, ?_, ?_,
    ?_, ?_, ?_, ?_, rfl⟩
  · rcases hg : d.genres with _ | gs
    · simp [get_recommendations_by_genre, hg]
    · simp [get_recommendations_by_genre, hg, hT, handle_plain]
  · intro credits crew hc hcr
    rcases hfd : find_director crew with _ | director
    · simp [get_recommendations_by_director, hc, hcr, hfd]
    · simp [get_recommendations_by_director, hc, hcr, hfd, hT,
        handle_filtered]
  · intro credits castList hc hcast
    rcases hne : (castList.take 3).isEmpty
    · simp [get_recommendations_by_cast, hc, hcast, hne, hT, handle_filtered]
    · simp [get_recommendations_by_cast, hc, hcast, hne]
  · rcases hk : d.keywords with _ | kwObj
    · simp [get_recommendations_by_keywords, hk]
    · rcases hne : (kwObj.keywords.getD []).isEmpty
      · simp [get_recommendations_by_keywords, hk, hne, hT, handle_filtered]
      · simp [get_recommendations_by_keywords, hk, hne]
  · simp [get_recommendations_by_rating, hT, handle_filtered]
  · intro hg
    simp [get_recommendations_by_genre, hg]
  · intro hc
    simp [get_recommendations_by_director, hc]
  · intro hc
    simp [get_recommendations_by_cast, hc]
  · intro hk
    simp [get_recommendations_by_keywords, hk]
  · intro credits hc hcr
    simp [get_recommendations_by_director, hc, hcr]
  · intro credits hc hcast
    simp [get_recommendations_by_cast, hc, hcast]
  · intro gs hg
    simp [get_recommendations_by_genre, hg, hN, handle_plain]
  · simp [get_recommendations_by_rating, hN, handle_filtered]

theorem claim_C8_amended_failure_semantics_witness :
    (get_recommendations_by_director 7 10 none apiSelf = .ok []) ∧
    (get_recommendations_by_genre 7 10 (some sampleDetails) apiDown
      = .ok []) ∧
    (get_recommendations_by_director 7 10 (some sampleDetails) apiDown
      = .ok []) ∧
    (get_recommendations_by_keywords 7 10 (some sampleDetails) apiDown
      = .ok []) ∧
    (get_recommendations_by_genre 7 10 (some noDirectorDetails) apiSelf
      = .ok []) ∧
    (get_recommendations_by_director 7 10 (some bareCreditsDetails) apiSelf
      = .error (.keyError "crew")) ∧
    (get_recommendations_by_cast 7 10 (some bareCreditsDetails) apiSelf
      = .error (.keyError "cast")) ∧
    (get_recommendations_by_rating 7 10 (some sampleDetails) apiNoResults
      = .error (.keyError "results")) := by
  obtain ⟨-, hdir0, -, -, -, hgT, hdirT, -, hkwT, -, -, hgm, -, -, -, -, -,
    -, hrN, -⟩ :=
    claim_C8_amended_failure_semantics 7 10 sampleDetails apiSelf apiDown
      apiNoResults (fun _ => rfl) (fun _ => rfl)
  obtain ⟨-, -, -, -, -, -, -, -, -, -, -, hgm2, -, -, -, hcrew, hcast, -,
    -, -⟩ :=
    claim_C8_amended_failure_semantics 7 10 bareCreditsDetails apiSelf
      apiDown apiNoResults (fun _ => rfl) (fun _ => rfl)
  obtain ⟨-, -, -, -, -, -, -, -, -, -, -, hgm3, -, -, -, -, -, -, -, -⟩ :=
    claim_C8_amended_failure_semantics 7 10 noDirectorDetails apiSelf
      apiDown apiNoResults (fun _ => rfl) (fun _ => rfl)
  exact ⟨hdir0, hgT,
    hdirT _ _ rfl rfl, hkwT, hgm3 rfl,
    hcrew _ rfl rfl, hcast _ rfl rfl, hrN⟩
